import Mathlib

/-!
Verification of the subscription-manager adapter
(`src/manager/subscriptionmanager/subscriptionmanager.py`) of virt-who.

The Python class `SubscriptionManager` is shallowly embedded below.
External collaborators (the rhsm connection, the certificate parser, the
job-tracking queue, the logger) are modelled as oracle parameters and as
explicit effect traces (network calls, queue messages, log lines), so that
each public method becomes a pure Lean function from its inputs and the
oracle environment to its result together with its observable effects.
Python dictionaries coming from the server are modelled by a JSON-like
value type with partial lookup, so that `KeyError` and similar dynamic
failures of the source are representable.
-/

/-- Python truthiness of an optional string: `None` and the empty string
are falsy, every other string is truthy. -/
def pyTruthy : Option String → Bool
  | none => false
  | some s => !s.isEmpty

/-- JSON-like values, modelling the Python dictionaries and lists that the
entitlement server returns. -/
inductive JVal where
  | null : JVal
  | str : String → JVal
  | arr : List JVal → JVal
  | obj : List (String × JVal) → JVal
  deriving Repr

/-- Dictionary lookup `d[k]`: `some` value when `d` is an object holding
the key, `none` otherwise (a `none` models a Python `KeyError` or a lookup
on a non-dictionary). -/
def JVal.get? : JVal → String → Option JVal
  | .obj kvs, k => kvs.lookup k
  | _, _ => none

/-- A guest record as the adapter sees it: a unique identifier `uuid` and
an opaque serialized dictionary form produced by the external
`Guest.toDict` collaborator. -/
structure Guest where
  uuid : String
  dictRep : JVal

/-- The external `Guest.toDict` serialization, opaque to this adapter. -/
def Guest.toDict (g : Guest) : JVal := g.dictRep

/-- Errors the adapter can signal.  `unregistered` embeds
`SubscriptionManagerUnregisteredError` (a `ManagerFatalError`),
`subMgrError` embeds `SubscriptionManagerError` (a `ManagerError`),
`managerError` embeds a plain `ManagerError`, and `pyError` embeds an
uncaught Python-level exception escaping the method. -/
inductive PyErr where
  | keyError : String → PyErr
  | typeError : String → PyErr
  | attrError : String → PyErr
  deriving Repr, DecidableEq

inductive MgrErr where
  | unregistered : String → MgrErr
  | subMgrError : String → MgrErr
  | managerError : String → MgrErr
  | pyError : PyErr → MgrErr
  deriving Repr, DecidableEq

/-- Network interactions performed by `_connect`: constructing the
`UEPConnection` and the liveness `ping`. -/
inductive NetCall where
  | newConnection
  | ping
  deriving Repr, DecidableEq

/-- Oracle environment for `_connect`: whether the consumer certificate
file is readable, and what the liveness ping reports. -/
structure ConnectEnv where
  certReadable : Bool
  pingResult : Bool

/-- Embedding of `SubscriptionManager._connect`.  Credentials are used
when both username and password are truthy; otherwise certificate
authentication is attempted, raising the unregistered fatal error before
any network call when the certificate file is unreadable.  After the
connection is built, a failing ping raises a `SubscriptionManagerError`.
Returns the outcome together with the trace of network calls made. -/
def connect (env : ConnectEnv) (rhsm_username rhsm_password : Option String) :
    Except MgrErr Unit × List NetCall :=
  if pyTruthy rhsm_username && pyTruthy rhsm_password then
    if env.pingResult then
      (.ok (), [.newConnection, .ping])
    else
      (.error (.subMgrError "Unable to obtain status from server, UEPConnection is likely not usable."),
       [.newConnection, .ping])
  else
    if !env.certReadable then
      (.error (.unregistered "Unable to read certificate, system is not registered or you are not root"),
       [])
    else
      if env.pingResult then
        (.ok (), [.newConnection, .ping])
      else
        (.error (.subMgrError "Unable to obtain status from server, UEPConnection is likely not usable."),
         [.newConnection, .ping])

/-- The per-source configuration object handed to `hypervisorCheckIn` and
`checkJobStatus`. -/
structure CheckInConfig where
  rhsm_username : Option String
  rhsm_password : Option String
  owner : String
  env : String

/-- Credentials `hypervisorCheckIn` and `checkJobStatus` forward to
`_connect`: the config credentials when both are truthy, else none. -/
def effectiveCreds (config : CheckInConfig) : Option String × Option String :=
  if pyTruthy config.rhsm_username && pyTruthy config.rhsm_password then
    (config.rhsm_username, config.rhsm_password)
  else
    (none, none)

/-- An entry of the async envelope payload. -/
structure HypervisorEntry where
  hypervisorId : String
  guestIds : List JVal
  deriving Repr

/-- The two wire shapes a check-in payload can take: the flat
host-to-guest-dicts mapping, or the `hypervisors` envelope used when the
server advertises the `hypervisors_async` capability. -/
inductive Payload where
  | flat : List (String × List JVal) → Payload
  | envelope : List HypervisorEntry → Payload
  deriving Repr

/-- First serialization step of `hypervisorCheckIn`: each guest list of
the mapping is replaced by the list of guest dictionary forms. -/
def serializeMapping (mapping : List (String × List Guest)) :
    List (String × List JVal) :=
  mapping.map (fun hg => (hg.1, hg.2.map Guest.toDict))

/-- Capability-gated payload shaping of `hypervisorCheckIn`: with the
`hypervisors_async` capability the serialized mapping is rebuilt into the
`hypervisors` envelope, otherwise it is submitted as is. -/
def shapePayload (is_async : Bool) (serialized : List (String × List JVal)) :
    Payload :=
  if is_async then
    .envelope (serialized.map (fun hg => { hypervisorId := hg.1, guestIds := hg.2 }))
  else
    .flat serialized

/-- Outcome of the `connection.hypervisorCheckIn` transport call: a server
response dictionary, or the `BadStatusLine` transport exception. -/
inductive SubmitOutcome where
  | ok : JVal → SubmitOutcome
  | badStatusLine : SubmitOutcome

/-- Oracle environment for `hypervisorCheckIn`. -/
structure CheckInEnv where
  connectEnv : ConnectEnv
  hasAsyncCapability : Bool
  submit : SubmitOutcome

/-- A message placed on the job-tracking sink `manager_queue`: the tuple
`(newJobStatus, [config, jobId])`. -/
inductive QueueMsg where
  | newJobStatus : CheckInConfig → JVal → QueueMsg

/-- Observable outcome of `hypervisorCheckIn`: the returned value or
error, the payload submitted to the server (none when the method failed
before submitting), and the messages enqueued to the sink. -/
structure CheckInOut where
  result : Except MgrErr JVal
  submitted : Option Payload
  queued : List QueueMsg

/-- Embedding of `SubscriptionManager.hypervisorCheckIn`.  `queue` is
`some ()` when a `manager_queue` was supplied at construction.  The method
serializes the mapping, connects, branches the payload shape on the
`hypervisors_async` capability, submits, converts `BadStatusLine` into a
`ManagerError`, and when async with a sink present enqueues
`(newJobStatus, [config, result[id]])` before returning the raw result. -/
def hypervisorCheckIn (queue : Option Unit) (env : CheckInEnv)
    (config : CheckInConfig) (mapping : List (String × List Guest)) :
    CheckInOut :=
  let serialized := serializeMapping mapping
  let creds := effectiveCreds config
  match (connect env.connectEnv creds.1 creds.2).1 with
  | .error e => { result := .error e, submitted := none, queued := [] }
  | .ok _ =>
    let is_async := env.hasAsyncCapability
    let payload := shapePayload is_async serialized
    match env.submit with
    | .badStatusLine =>
      { result := .error (.managerError "Communication with subscription manager interrupted"),
        submitted := some payload, queued := [] }
    | .ok r =>
      if is_async && queue.isSome then
        match r.get? "id" with
        | none =>
          { result := .error (.pyError (.keyError "id")),
            submitted := some payload, queued := [] }
        | some jid =>
          { result := .ok r, submitted := some payload,
            queued := [.newJobStatus config jid] }
      else
        { result := .ok r, submitted := some payload, queued := [] }

/-- A log line emitted by `checkJobStatus` when summarizing a finished
job: one error line per failed update, one info line per updated host
with its guest id list, one info line per created host likewise. -/
inductive LogLine where
  | failedUpdate : JVal → LogLine
  | updatedHost : JVal → List String → LogLine
  | createdHost : JVal → List String → LogLine
  deriving Repr

inductive LogLevel where
  | error
  | info
  deriving Repr, DecidableEq

/-- Logging level of each summary line: failed updates are logged at
error level, updated and created hosts at info level. -/
def LogLine.level : LogLine → LogLevel
  | .failedUpdate _ => .error
  | .updatedHost _ _ => .info
  | .createdHost _ _ => .info

/-- Python iteration over a value: lists yield their elements, dicts
their keys, strings their characters; other values are not iterable. -/
def pyIter : JVal → Except PyErr (List JVal)
  | .arr xs => .ok xs
  | .obj kvs => .ok (kvs.map (fun kv => JVal.str kv.1))
  | .str s => .ok (s.toList.map (fun c => JVal.str (String.mk [c])))
  | .null => .error (.typeError "NoneType object is not iterable")

/-- Body of one iteration of the updated/created summary loops: evaluate
`[x[guestId] for x in entry[guestIds]]`, then look up `entry[uuid]`, then
join the guest ids (each must be a string).  Returns the host identifier
and the guest id strings, or the first dynamic failure. -/
def guestIdStrings (entry : JVal) : Except PyErr (JVal × List String) := do
  let gidsV ← match entry.get? "guestIds" with
    | some v => Except.ok v
    | none => Except.error (PyErr.keyError "guestIds")
  let gids ← pyIter gidsV
  let gidVals ← gids.mapM (fun x =>
    match x.get? "guestId" with
    | some v => Except.ok v
    | none => Except.error (PyErr.keyError "guestId"))
  let uuidV ← match entry.get? "uuid" with
    | some v => Except.ok v
    | none => Except.error (PyErr.keyError "uuid")
  let names ← gidVals.mapM (fun v =>
    match v with
    | JVal.str s => Except.ok s
    | _ => Except.error (PyErr.typeError "sequence item: expected str instance"))
  .ok (uuidV, names)

/-- The updated/created summary loop: one log line per entry, stopping at
the first failing entry while keeping the lines already emitted. -/
def hostLines (mk : JVal → List String → LogLine) :
    List JVal → List LogLine × Option PyErr
  | [] => ([], none)
  | e :: rest =>
    match guestIdStrings e with
    | .error err => ([], some err)
    | .ok un =>
      let tail := hostLines mk rest
      (mk un.1 un.2 :: tail.1, tail.2)

/-- The test `result[state] != FINISHED` of the source, negated: true
exactly when the state value is the string FINISHED (a non-string state
compares unequal to the string in Python). -/
def isFinished : JVal → Bool
  | .str s => s = "FINISHED"
  | _ => false

/-- Oracle environment for `checkJobStatus`: the connect oracle and the
server response to `connection.getJob`. -/
structure JobEnv where
  connectEnv : ConnectEnv
  getJob : String → JVal

/-- Observable outcome of `checkJobStatus`: the returned value or error,
the messages enqueued to the sink, and the log lines emitted before
returning or failing. -/
structure JobOut where
  result : Except MgrErr JVal
  queued : List QueueMsg
  logs : List LogLine

/-- Embedding of `SubscriptionManager.checkJobStatus`.  After connecting,
the job is fetched; when its state is not FINISHED the method re-enqueues
`(newJobStatus, [config, result[id]])` on the sink (dereferencing the
sink without a None-guard) and returns the raw job status.  When the
state is FINISHED it logs the failed updates, the updated hosts, and,
when `result[created]` is a list — note the source reads the key
`created` from the outer job dictionary, not from `resultData` — the
created hosts, then returns `resultData`. -/
def checkJobStatus (queue : Option Unit) (env : JobEnv)
    (config : CheckInConfig) (job_id : String) : JobOut :=
  let creds := effectiveCreds config
  match (connect env.connectEnv creds.1 creds.2).1 with
  | .error e => { result := .error e, queued := [], logs := [] }
  | .ok _ =>
    let result := env.getJob job_id
    match result.get? "state" with
    | none => { result := .error (.pyError (.keyError "state")), queued := [], logs := [] }
    | some st =>
      if isFinished st then
        match result.get? "resultData" with
        | none => { result := .error (.pyError (.keyError "resultData")), queued := [], logs := [] }
        | some resultData =>
          match resultData.get? "failedUpdate" with
          | none => { result := .error (.pyError (.keyError "failedUpdate")), queued := [], logs := [] }
          | some fuV =>
            match pyIter fuV with
            | .error e => { result := .error (.pyError e), queued := [], logs := [] }
            | .ok fails =>
              let failLogs := fails.map LogLine.failedUpdate
              match resultData.get? "updated" with
              | none => { result := .error (.pyError (.keyError "updated")), queued := [], logs := failLogs }
              | some updV =>
                match pyIter updV with
                | .error e => { result := .error (.pyError e), queued := [], logs := failLogs }
                | .ok upds =>
                  let updPair := hostLines LogLine.updatedHost upds
                  match updPair.2 with
                  | some e =>
                    { result := .error (.pyError e), queued := [],
                      logs := failLogs ++ updPair.1 }
                  | none =>
                    match result.get? "created" with
                    | none =>
                      { result := .error (.pyError (.keyError "created")), queued := [],
                        logs := failLogs ++ updPair.1 }
                    | some crV =>
                      match crV with
                      | .arr crs =>
                        let crPair := hostLines LogLine.createdHost crs
                        match crPair.2 with
                        | some e =>
                          { result := .error (.pyError e), queued := [],
                            logs := failLogs ++ updPair.1 ++ crPair.1 }
                        | none =>
                          { result := .ok resultData, queued := [],
                            logs := failLogs ++ updPair.1 ++ crPair.1 }
                      | _ =>
                        { result := .ok resultData, queued := [],
                          logs := failLogs ++ updPair.1 }
      else
        match queue with
        | none =>
          { result := .error (.pyError (.attrError "NoneType object has no attribute put")),
            queued := [], logs := [] }
        | some _ =>
          match result.get? "id" with
          | none => { result := .error (.pyError (.keyError "id")), queued := [], logs := [] }
          | some jid =>
            { result := .ok result, queued := [.newJobStatus config jid], logs := [] }

/-- Memoization state of `SubscriptionManager.uuid`: the `cert_uuid`
attribute, initially None. -/
structure UuidState where
  cert_uuid : Option String
  deriving Repr, DecidableEq

/-- Embedding of `SubscriptionManager.uuid`.  The guard is the Python
truthiness test `if not self.cert_uuid`: the certificate is read both
when `cert_uuid` is None and when it is the empty string.  Returns the
resolved uuid or the wrapped parse error, the new memo state, and the
number of certificate reads performed (0 or 1). -/
def uuidStep (certParse : Except String String) (s : UuidState) :
    Except MgrErr String × UuidState × Nat :=
  let readNow : Except MgrErr String × UuidState × Nat :=
    match certParse with
    | .ok cn => (.ok cn, { cert_uuid := some cn }, 1)
    | .error e => (.error (.subMgrError ("Unable to open certificate (" ++ e ++ "):")), s, 1)
  match s.cert_uuid with
  | none => readNow
  | some u => if u.isEmpty then readNow else (.ok u, s, 0)

/-- The guest ordering used by `sendVirtGuests`: the sort key is the
guest uuid. -/
def guestLe (a b : Guest) : Prop := a.uuid ≤ b.uuid

instance : DecidableRel guestLe := fun a b =>
  inferInstanceAs (Decidable (a.uuid ≤ b.uuid))

instance : IsTotal Guest guestLe := ⟨fun a b => le_total a.uuid b.uuid⟩

instance : IsTrans Guest guestLe := ⟨fun _ _ _ h1 h2 => le_trans h1 h2⟩

/-- The in-place `guests.sort(key=lambda item: item.uuid)` of the source,
embedded as a stable sort by uuid. -/
def sortGuests (gs : List Guest) : List Guest := List.insertionSort guestLe gs

/-- Observable outcome of `sendVirtGuests`: the returned value or error,
the serialized guest list submitted by `updateConsumer` (none when the
method failed before submitting), the state of the caller-owned guest
list after the call, and the memo state after the embedded `uuid` call. -/
structure SVGOut where
  result : Except MgrErr Unit
  submitted : Option (List JVal)
  guestsAfter : List Guest
  uuidStateAfter : UuidState

/-- Embedding of `SubscriptionManager.sendVirtGuests`.  The method
connects, sorts the caller-owned list in place by guest uuid, serializes
each guest, resolves the consumer uuid, and submits the serialized list
via `updateConsumer`. -/
def sendVirtGuests (env : ConnectEnv) (certParse : Except String String)
    (s : UuidState) (guests : List Guest) : SVGOut :=
  match (connect env none none).1 with
  | .error e => { result := .error e, submitted := none, guestsAfter := guests, uuidStateAfter := s }
  | .ok _ =>
    let sorted := sortGuests guests
    let serialized := sorted.map Guest.toDict
    match uuidStep certParse s with
    | (.error e, s2, _) =>
      { result := .error e, submitted := none, guestsAfter := sorted, uuidStateAfter := s2 }
    | (.ok _, s2, _) =>
      { result := .ok (), submitted := some serialized, guestsAfter := sorted, uuidStateAfter := s2 }

/-- Helper: when the certificate is readable and the ping succeeds,
`_connect` succeeds for any credentials. -/
theorem connect_ok (env : ConnectEnv) (u p : Option String)
    (hcert : env.certReadable = true) (hping : env.pingResult = true) :
    (connect env u p).1 = .ok () := by
  cases h : pyTruthy u && pyTruthy p <;> simp [connect, h, hcert, hping]

/-- Claim C1: for the mapping sending h1 to the guests g1 and g2,
`hypervisorCheckIn` submits the flat payload with one entry holding both
guest dictionary forms when the server lacks the hypervisors_async
capability, and the hypervisors envelope holding one entry with
hypervisorId h1 and those guest dictionary forms when it has it. -/
theorem c1_payload_shape (queue : Option Unit) (env : CheckInEnv)
    (config : CheckInConfig) (h1 : String) (g1 g2 : Guest)
    (hcert : env.connectEnv.certReadable = true)
    (hping : env.connectEnv.pingResult = true) :
    (hypervisorCheckIn queue env config [(h1, [g1, g2])]).submitted =
      some (if env.hasAsyncCapability then
              Payload.envelope [{ hypervisorId := h1, guestIds := [g1.toDict, g2.toDict] }]
            else
              Payload.flat [(h1, [g1.toDict, g2.toDict])]) := by
  have hcon : ∀ u p, (connect env.connectEnv u p).1 = .ok () :=
    fun u p => connect_ok env.connectEnv u p hcert hping
  cases hs : env.submit with
  | badStatusLine =>
    cases ha : env.hasAsyncCapability <;>
      simp [hypervisorCheckIn, hcon, hs, ha, shapePayload, serializeMapping]
  | ok r =>
    cases ha : env.hasAsyncCapability <;>
      cases hq : queue <;>
        cases hid : r.get? "id" <;>
          simp [hypervisorCheckIn, hcon, hs, ha, hq, hid, shapePayload, serializeMapping]

/-- Witness for C1 at a concrete async-capable input. -/
theorem c1_payload_shape_witness :
    (hypervisorCheckIn none
        { connectEnv := { certReadable := true, pingResult := true },
          hasAsyncCapability := true, submit := .ok .null }
        { rhsm_username := none, rhsm_password := none, owner := "o", env := "e" }
        [("h1", [{ uuid := "g1u", dictRep := .null }, { uuid := "g2u", dictRep := .null }])]).submitted =
      some (if (true : Bool) then
              Payload.envelope [{ hypervisorId := "h1",
                                  guestIds := [Guest.toDict { uuid := "g1u", dictRep := .null },
                                               Guest.toDict { uuid := "g2u", dictRep := .null }] }]
            else
              Payload.flat [("h1", [Guest.toDict { uuid := "g1u", dictRep := .null },
                                    Guest.toDict { uuid := "g2u", dictRep := .null }])]) :=
  c1_payload_shape none
    { connectEnv := { certReadable := true, pingResult := true },
      hasAsyncCapability := true, submit := .ok .null }
    { rhsm_username := none, rhsm_password := none, owner := "o", env := "e" }
    "h1" { uuid := "g1u", dictRep := .null } { uuid := "g2u", dictRep := .null } rfl rfl

/-- Claim C3: on an async check-in with a job-tracking sink supplied,
when the server responds with a dictionary whose id field is jid,
`hypervisorCheckIn` enqueues exactly the one message
(newJobStatus, [config, jid]) and returns the raw server result. -/
theorem c3_async_enqueue (env : CheckInEnv) (config : CheckInConfig)
    (mapping : List (String × List Guest)) (r jid : JVal)
    (hcert : env.connectEnv.certReadable = true)
    (hping : env.connectEnv.pingResult = true)
    (hasync : env.hasAsyncCapability = true)
    (hsubmit : env.submit = .ok r)
    (hid : r.get? "id" = some jid) :
    (hypervisorCheckIn (some ()) env config mapping).result = .ok r ∧
    (hypervisorCheckIn (some ()) env config mapping).queued =
      [.newJobStatus config jid] := by
  have hcon : ∀ u p, (connect env.connectEnv u p).1 = .ok () :=
    fun u p => connect_ok env.connectEnv u p hcert hping
  constructor <;> simp [hypervisorCheckIn, hcon, hsubmit, hasync, hid]

/-- Witness for C3 at a concrete input. -/
theorem c3_async_enqueue_witness :
    (hypervisorCheckIn (some ())
        { connectEnv := { certReadable := true, pingResult := true },
          hasAsyncCapability := true, submit := .ok (.obj [("id", .str "job1")]) }
        { rhsm_username := none, rhsm_password := none, owner := "o", env := "e" }
        []).result = .ok (.obj [("id", .str "job1")]) ∧
    (hypervisorCheckIn (some ())
        { connectEnv := { certReadable := true, pingResult := true },
          hasAsyncCapability := true, submit := .ok (.obj [("id", .str "job1")]) }
        { rhsm_username := none, rhsm_password := none, owner := "o", env := "e" }
        []).queued =
      [.newJobStatus { rhsm_username := none, rhsm_password := none, owner := "o", env := "e" }
        (.str "job1")] :=
  c3_async_enqueue
    { connectEnv := { certReadable := true, pingResult := true },
      hasAsyncCapability := true, submit := .ok (.obj [("id", .str "job1")]) }
    { rhsm_username := none, rhsm_password := none, owner := "o", env := "e" }
    [] (.obj [("id", .str "job1")]) (.str "job1") rfl rfl rfl rfl rfl

/-- Claim C7: with certificate authentication (no credentials supplied)
and an unreadable certificate file, `_connect` raises the fatal
unregistered error and performs no network call at all. -/
theorem c7_unregistered_before_network (env : ConnectEnv)
    (u p : Option String)
    (hnocreds : (pyTruthy u && pyTruthy p) = false)
    (hcert : env.certReadable = false) :
    connect env u p =
      (.error (.unregistered "Unable to read certificate, system is not registered or you are not root"),
       []) := by
  simp [connect, hnocreds, hcert]

/-- Witness for C7 at a concrete input. -/
theorem c7_unregistered_before_network_witness :
    connect { certReadable := false, pingResult := true } none none =
      (.error (.unregistered "Unable to read certificate, system is not registered or you are not root"),
       []) :=
  c7_unregistered_before_network { certReadable := false, pingResult := true }
    none none rfl rfl

/-- Claim C8: when the transport raises BadStatusLine during the check-in
submission, `hypervisorCheckIn` returns the generic communication
ManagerError instead of letting the transport exception propagate. -/
theorem c8_bad_status_line (queue : Option Unit) (env : CheckInEnv)
    (config : CheckInConfig) (mapping : List (String × List Guest))
    (hcert : env.connectEnv.certReadable = true)
    (hping : env.connectEnv.pingResult = true)
    (hbad : env.submit = .badStatusLine) :
    (hypervisorCheckIn queue env config mapping).result =
      .error (.managerError "Communication with subscription manager interrupted") := by
  have hcon : ∀ u p, (connect env.connectEnv u p).1 = .ok () :=
    fun u p => connect_ok env.connectEnv u p hcert hping
  simp [hypervisorCheckIn, hcon, hbad]

/-- Witness for C8 at a concrete input. -/
theorem c8_bad_status_line_witness :
    (hypervisorCheckIn none
        { connectEnv := { certReadable := true, pingResult := true },
          hasAsyncCapability := false, submit := .badStatusLine }
        { rhsm_username := none, rhsm_password := none, owner := "o", env := "e" }
        []).result =
      .error (.managerError "Communication with subscription manager interrupted") :=
  c8_bad_status_line none
    { connectEnv := { certReadable := true, pingResult := true },
      hasAsyncCapability := false, submit := .badStatusLine }
    { rhsm_username := none, rhsm_password := none, owner := "o", env := "e" }
    [] rfl rfl rfl

/-- Claim C4: polling a job whose state is not FINISHED (such as RUNNING,
with the sink supplied) re-enqueues exactly one message
(newJobStatus, [config, jobId]) on the sink, returns the raw job status
rather than resultData, and emits no created/updated/failed log lines. -/
theorem c4_pending_reenqueue (env : JobEnv) (config : CheckInConfig)
    (job_id : String) (st : JVal)
    (hcert : env.connectEnv.certReadable = true)
    (hping : env.connectEnv.pingResult = true)
    (hstate : (env.getJob job_id).get? "state" = some st)
    (hnf : isFinished st = false)
    (hid : (env.getJob job_id).get? "id" = some (.str job_id)) :
    (checkJobStatus (some ()) env config job_id).result = .ok (env.getJob job_id) ∧
    (checkJobStatus (some ()) env config job_id).queued =
      [.newJobStatus config (.str job_id)] ∧
    (checkJobStatus (some ()) env config job_id).logs = [] := by
  have hcon : ∀ u p, (connect env.connectEnv u p).1 = .ok () :=
    fun u p => connect_ok env.connectEnv u p hcert hping
  refine ⟨?_, ?_, ?_⟩ <;> simp [checkJobStatus, hcon, hstate, hnf, hid]

/-- Witness for C4 at a concrete RUNNING job. -/
theorem c4_pending_reenqueue_witness :
    (checkJobStatus (some ())
        { connectEnv := { certReadable := true, pingResult := true },
          getJob := fun _ => .obj [("state", .str "RUNNING"), ("id", .str "j1")] }
        { rhsm_username := none, rhsm_password := none, owner := "o", env := "e" }
        "j1").result = .ok (.obj [("state", .str "RUNNING"), ("id", .str "j1")]) ∧
    (checkJobStatus (some ())
        { connectEnv := { certReadable := true, pingResult := true },
          getJob := fun _ => .obj [("state", .str "RUNNING"), ("id", .str "j1")] }
        { rhsm_username := none, rhsm_password := none, owner := "o", env := "e" }
        "j1").queued =
      [.newJobStatus { rhsm_username := none, rhsm_password := none, owner := "o", env := "e" }
        (.str "j1")] ∧
    (checkJobStatus (some ())
        { connectEnv := { certReadable := true, pingResult := true },
          getJob := fun _ => .obj [("state", .str "RUNNING"), ("id", .str "j1")] }
        { rhsm_username := none, rhsm_password := none, owner := "o", env := "e" }
        "j1").logs = [] :=
  c4_pending_reenqueue
    { connectEnv := { certReadable := true, pingResult := true },
      getJob := fun _ => .obj [("state", .str "RUNNING"), ("id", .str "j1")] }
    { rhsm_username := none, rhsm_password := none, owner := "o", env := "e" }
    "j1" (.str "RUNNING") rfl rfl rfl rfl rfl

/-- Claim C10: when the adapter was constructed without a job-tracking
sink, polling a job whose state is not FINISHED fails with the attribute
error of dereferencing the absent sink, and nothing is enqueued: a
supplied sink is an unstated precondition of polling a pending job. -/
theorem c10_none_sink_pending_fails (env : JobEnv) (config : CheckInConfig)
    (job_id : String) (st : JVal)
    (hcert : env.connectEnv.certReadable = true)
    (hping : env.connectEnv.pingResult = true)
    (hstate : (env.getJob job_id).get? "state" = some st)
    (hnf : isFinished st = false) :
    (checkJobStatus none env config job_id).result =
      .error (.pyError (.attrError "NoneType object has no attribute put")) ∧
    (checkJobStatus none env config job_id).queued = [] := by
  have hcon : ∀ u p, (connect env.connectEnv u p).1 = .ok () :=
    fun u p => connect_ok env.connectEnv u p hcert hping
  constructor <;> simp [checkJobStatus, hcon, hstate, hnf]

/-- Witness for C10 at a concrete RUNNING job with no sink. -/
theorem c10_none_sink_pending_fails_witness :
    (checkJobStatus none
        { connectEnv := { certReadable := true, pingResult := true },
          getJob := fun _ => .obj [("state", .str "RUNNING"), ("id", .str "j1")] }
        { rhsm_username := none, rhsm_password := none, owner := "o", env := "e" }
        "j1").result =
      .error (.pyError (.attrError "NoneType object has no attribute put")) ∧
    (checkJobStatus none
        { connectEnv := { certReadable := true, pingResult := true },
          getJob := fun _ => .obj [("state", .str "RUNNING"), ("id", .str "j1")] }
        { rhsm_username := none, rhsm_password := none, owner := "o", env := "e" }
        "j1").queued = [] :=
  c10_none_sink_pending_fails
    { connectEnv := { certReadable := true, pingResult := true },
      getJob := fun _ => .obj [("state", .str "RUNNING"), ("id", .str "j1")] }
    { rhsm_username := none, rhsm_password := none, owner := "o", env := "e" }
    "j1" (.str "RUNNING") rfl rfl rfl rfl

/-- The FINISHED job status of claim C2: per the server interface the job
dictionary holds state, id and resultData, and resultData holds one
failed update, one updated host h1 with guest g1, and created = null. -/
def c2Job : JVal :=
  .obj [("state", .str "FINISHED"), ("id", .str "j1"),
        ("resultData", .obj [
          ("failedUpdate", .arr [.obj [("host", .str "hbad")]]),
          ("updated", .arr [.obj [("uuid", .str "h1"),
                                  ("guestIds", .arr [.obj [("guestId", .str "g1")]])]]),
          ("created", .null)])]

/-- Claim C2, evaluated at its own input: the source reads the key
created from the outer job dictionary instead of from resultData, so on
the very job shape the claim describes the method emits the expected
error line and updated-host line but then fails with KeyError created
instead of returning resultData. -/
theorem c2_created_keyerror :
    checkJobStatus (some ())
        { connectEnv := { certReadable := true, pingResult := true },
          getJob := fun _ => c2Job }
        { rhsm_username := none, rhsm_password := none, owner := "o", env := "e" }
        "j1" =
      { result := .error (.pyError (.keyError "created")),
        queued := [],
        logs := [.failedUpdate (.obj [("host", .str "hbad")]),
                 .updatedHost (.str "h1") ["g1"]] } := by
  rfl

/-- Claim C5: whatever the input order, `sendVirtGuests` submits the
guest dictionary forms in the order of the guest list sorted ascending by
guest uuid: the submitted list is the image under toDict of a sorted
permutation of the input. -/
theorem c5_sorted_submission (env : ConnectEnv) (certParse : Except String String)
    (s : UuidState) (guests : List Guest) (u : String)
    (hcert : env.certReadable = true) (hping : env.pingResult = true)
    (hu : (uuidStep certParse s).1 = .ok u) :
    (sendVirtGuests env certParse s guests).submitted =
      some ((sortGuests guests).map Guest.toDict) ∧
    (sortGuests guests).Perm guests ∧
    List.Sorted guestLe (sortGuests guests) := by
  have hcon : (connect env none none).1 = .ok () := connect_ok env none none hcert hping
  refine ⟨?_, List.perm_insertionSort guestLe guests, List.sorted_insertionSort guestLe guests⟩
  rcases hstep : uuidStep certParse s with ⟨r, s2, n⟩
  rw [hstep] at hu
  simp only at hu
  subst hu
  simp [sendVirtGuests, hcon, hstep]

/-- Witness for C5 at a concrete two-guest list given in descending
order. -/
theorem c5_sorted_submission_witness :
    (sendVirtGuests { certReadable := true, pingResult := true } (.ok "cn")
        { cert_uuid := none }
        [{ uuid := "b", dictRep := .str "gb" }, { uuid := "a", dictRep := .str "ga" }]).submitted =
      some ((sortGuests
        [{ uuid := "b", dictRep := .str "gb" }, { uuid := "a", dictRep := .str "ga" }]).map
          Guest.toDict) ∧
    (sortGuests
        [{ uuid := "b", dictRep := .str "gb" }, { uuid := "a", dictRep := .str "ga" }]).Perm
      [{ uuid := "b", dictRep := .str "gb" }, { uuid := "a", dictRep := .str "ga" }] ∧
    List.Sorted guestLe (sortGuests
        [{ uuid := "b", dictRep := .str "gb" }, { uuid := "a", dictRep := .str "ga" }]) :=
  c5_sorted_submission { certReadable := true, pingResult := true } (.ok "cn")
    { cert_uuid := none }
    [{ uuid := "b", dictRep := .str "gb" }, { uuid := "a", dictRep := .str "ga" }]
    "cn" rfl rfl rfl

/-- Claim C6 is refuted at a concrete input: the source sorts the
caller-owned list in place, so after a call on two guests given in
descending uuid order the caller holds the uuids in ascending order, not
the original sequence. -/
theorem c6_counterexample :
    ((sendVirtGuests { certReadable := true, pingResult := true } (.ok "cn")
        { cert_uuid := none }
        [{ uuid := "b", dictRep := .null }, { uuid := "a", dictRep := .null }]).guestsAfter).map
      Guest.uuid ≠ ["b", "a"] := by
  have hba : ¬ guestLe { uuid := "b", dictRep := .null } { uuid := "a", dictRep := .null } := by
    show ¬ (("b" : String) ≤ "a")
    rw [String.le_iff_toList_le]
    decide
  have hcon : (connect { certReadable := true, pingResult := true } none none).1 = .ok () := rfl
  simp [sendVirtGuests, hcon, uuidStep, sortGuests, List.insertionSort, List.orderedInsert, hba]

/-- Claim C6 as amended: `sendVirtGuests` does mutate the caller-owned
list, by sorting it in place: after a successful connect the list the
caller holds is exactly the input sorted ascending by guest uuid, a
permutation of the input with the Guest records themselves unmodified. -/
theorem c6_amended_in_place_sort (env : ConnectEnv)
    (certParse : Except String String) (s : UuidState) (guests : List Guest)
    (hcert : env.certReadable = true) (hping : env.pingResult = true) :
    (sendVirtGuests env certParse s guests).guestsAfter = sortGuests guests ∧
    (sortGuests guests).Perm guests ∧
    List.Sorted guestLe (sortGuests guests) := by
  have hcon : (connect env none none).1 = .ok () := connect_ok env none none hcert hping
  refine ⟨?_, List.perm_insertionSort guestLe guests, List.sorted_insertionSort guestLe guests⟩
  rcases hstep : uuidStep certParse s with ⟨r, s2, n⟩
  cases r <;> simp [sendVirtGuests, hcon, hstep]

/-- Witness for the amended C6 at a concrete input. -/
theorem c6_amended_in_place_sort_witness :
    (sendVirtGuests { certReadable := true, pingResult := true } (.ok "cn")
        { cert_uuid := none }
        [{ uuid := "b", dictRep := .null }, { uuid := "a", dictRep := .null }]).guestsAfter =
      sortGuests [{ uuid := "b", dictRep := .null }, { uuid := "a", dictRep := .null }] ∧
    (sortGuests [{ uuid := "b", dictRep := .null }, { uuid := "a", dictRep := .null }]).Perm
      [{ uuid := "b", dictRep := .null }, { uuid := "a", dictRep := .null }] ∧
    List.Sorted guestLe
      (sortGuests [{ uuid := "b", dictRep := .null }, { uuid := "a", dictRep := .null }]) :=
  c6_amended_in_place_sort { certReadable := true, pingResult := true } (.ok "cn")
    { cert_uuid := none }
    [{ uuid := "b", dictRep := .null }, { uuid := "a", dictRep := .null }] rfl rfl

/-- Claim C9 is refuted at a concrete input: the memo guard is the Python
truthiness test, so a certificate that parses successfully to the empty
string defeats memoization: two calls both return the empty uuid yet the
certificate is read twice, not at most once. -/
theorem c9_counterexample :
    ¬ ((uuidStep (.ok "") { cert_uuid := none }).2.2 +
        (uuidStep (.ok "") (uuidStep (.ok "") { cert_uuid := none }).2.1).2.2 ≤ 1) := by
  decide

/-- Claim C9 as amended: for an adapter whose certificate parses
successfully to a non-empty uuid, calling uuid twice from the fresh state
returns the identical value both times and reads the certificate exactly
once across the two calls. -/
theorem c9_amended_memoized (cn : String) (hcn : cn.isEmpty = false) :
    (uuidStep (.ok cn) { cert_uuid := none }).1 = .ok cn ∧
    (uuidStep (.ok cn) (uuidStep (.ok cn) { cert_uuid := none }).2.1).1 = .ok cn ∧
    (uuidStep (.ok cn) { cert_uuid := none }).2.2 +
      (uuidStep (.ok cn) (uuidStep (.ok cn) { cert_uuid := none }).2.1).2.2 = 1 := by
  refine ⟨rfl, ?_, ?_⟩ <;> simp [uuidStep, hcn]

/-- Witness for the amended C9 at a concrete certificate uuid. -/
theorem c9_amended_memoized_witness :
    (uuidStep (.ok "abc") { cert_uuid := none }).1 = .ok "abc" ∧
    (uuidStep (.ok "abc") (uuidStep (.ok "abc") { cert_uuid := none }).2.1).1 = .ok "abc" ∧
    (uuidStep (.ok "abc") { cert_uuid := none }).2.2 +
      (uuidStep (.ok "abc") (uuidStep (.ok "abc") { cert_uuid := none }).2.1).2.2 = 1 :=
  c9_amended_memoized "abc" rfl
